import Mathlib

/-!
Shallow embedding of the emblem extension-environment core (src/ext/ext-env.c)
together with the narrow collaborator interfaces it consumes (src/logs/logs.h
and headers outside the visible sources).  Pure data is translated directly;
the Lua runtime is modelled by its observable pieces: a global namespace
(a map from names to values) and a value stack.  External collaborators whose
implementations are not part of the visible sources (the em standard-library
loader, the extension loader, the styler, the tagged-pointer helpers and the
AST name list) are modelled from the specification at their interface
boundary, each marked in its doc comment.
-/

namespace Emblem

/-- Kind tags distinguishing the host pointers passed into the guest runtime
(the kinds used by ext-env.c: styler, extension environment, parsed arguments,
and the note-name registry). -/
inductive LuaPointerType where
  | STYLER
  | EXT_ENV
  | PARSED_ARGS
  | MT_NAMES_LIST
  deriving DecidableEq, Repr

/-- A tagged handle as built by make_lua_pointer: a kind tag together with a
non-owning host pointer, modelled as an abstract address. -/
structure LuaPointer where
  type : LuaPointerType
  data : Nat
  deriving DecidableEq, Repr

/-- Guest-runtime values as far as this core observes them: nil, integers,
light userdata wrapping a tagged handle, string-keyed integer tables (the only
table this core builds), registered host callables and loaded library modules,
the latter two identified by their registration name. -/
inductive LuaValue where
  | nil
  | integer (n : Int)
  | lightuserdata (p : LuaPointer)
  | table (t : List (String × Int))
  | cfunction (name : String)
  | lib (name : String)
  deriving DecidableEq, Repr

/-- The observable guest runtime state: the global namespace and the value
stack. -/
structure LuaState where
  globals : String → LuaValue
  stack : List LuaValue

/-- lua_setglobal: bind a name in the global namespace. -/
def setglobal (g : String → LuaValue) (k : String) (v : LuaValue) :
    String → LuaValue :=
  fun n => if n = k then v else g n

/-- lua_getglobal's lookup half: read a name from the global namespace. -/
def getglobal (g : String → LuaValue) (k : String) : LuaValue := g k

/-- lua_gettop: the number of values on the stack. -/
def lua_gettop (s : LuaState) : Nat := s.stack.length

/-- lua_getglobal: push the value bound to a global name onto the stack. -/
def lua_getglobal (s : LuaState) (k : String) : LuaState :=
  { s with stack := getglobal s.globals k :: s.stack }

/-- lua_pop: drop the top n values from the stack. -/
def lua_pop (s : LuaState) (n : Nat) : LuaState :=
  { s with stack := s.stack.drop n }

/-- The value at stack index -1 (the top). -/
def lua_stack_top (s : LuaState) : LuaValue :=
  s.stack.headD LuaValue.nil

/-- ext-env.c line 13: fixed guest-visible name of the tree-evaluation
callable. -/
def EM_EVAL_NODE_FUNC_NAME : String := "eval"

/-- ext-env.c line 14: fixed guest-visible name of the rerun-request
callable. -/
def EM_REQUIRE_RUNS_FUNC_NAME : String := "requires_reiter"

/-- ext-env.c line 15: fixed guest-visible name of the node-type lookup
table. -/
def EM_NODE_TYPES_TABLE : String := "node_types"

/-- Modelled from the spec: the fixed identifier of the pass-index global; its
definition lives in a header that is not among the visible sources. -/
def EM_ITER_NUM_VAR_NAME : String := "em_iter_num"

/-- Modelled from the spec: the fixed identifier of the self-handle global;
its definition lives in a header that is not among the visible sources. -/
def EM_ENV_VAR_NAME : String := "_em_env"

/-- Modelled from the spec: the fixed identifier of the parsed-arguments
handle global; its definition lives in a header that is not among the visible
sources. -/
def EM_ARGS_VAR_NAME : String := "em_args"

/-- Modelled from the spec: the fixed identifier of the name-registry handle
global; its definition lives in a header that is not among the visible
sources. -/
def EM_MT_NAMES_LIST_VAR_NAME : String := "em_mt_names_list"

/-- Modelled from the spec: the fixed identifier of the stylesheet-import
callable; its definition lives in a header that is not among the visible
sources. -/
def EM_IMPORT_STYLESHEET_FUNC_NAME : String := "import_stylesheet"

/-- Modelled from the spec: the fixed identifier of the file-inclusion
callable; its definition lives in a header that is not among the visible
sources. -/
def EM_INCLUDE_FILE_FUNC_NAME : String := "include_file"

/-- Modelled from the spec: the fixed identifier under which the styler
collaborator publishes the styler handle; style.h is not among the visible
sources. -/
def EM_STYLER_VAR_NAME : String := "em_styler"

/-- Construction parameters (ext-env.h, as consumed by ext-env.c): the sandbox
level and the host references wrapped into tagged handles. -/
structure ExtParams where
  sandbox_lvl : Int
  styler : Nat
  args : Nat
  mt_names_list : Nat
  deriving DecidableEq, Repr

/-- The Extension Environment record of ext-env.c: the runtime-state pointer
(abstract address), the rerun flag, the iteration counter, and the four owned
tagged handles. -/
structure ExtensionEnv where
  state : Nat
  require_extra_run : Bool
  iter_num : Int
  styler : LuaPointer
  selfp : LuaPointer
  args : LuaPointer
  mt_names_list : LuaPointer
  deriving DecidableEq, Repr

/-- Inputs supplied by collaborators outside this core: the AST collaborator's
ordered list of node-tree content-type names (modelled from the spec;
doc-struct/ast.h is not among the visible sources), the status codes returned
by the em standard-library loader and by the external extension loader (each
modelled from the spec by the status it hands back across the interface), the
address of the fresh runtime returned by luaL_newstate, and the environment's
own address (the target of the self-handle). -/
structure Host where
  names : List String
  load_em_std_lib_rc : Int
  load_extensions_rc : Int
  state_addr : Nat
  env_addr : Nat
  deriving DecidableEq, Repr

/-- Modelled from the spec: validated retrieval of a tagged handle (the
lua-pointers helper is used but not defined among the visible sources): the
value must be a light userdata whose kind tag equals the expected kind;
anything else fails closed.  A none result models a non-zero C return code. -/
def to_userdata_pointer (v : LuaValue) (expected : LuaPointerType) :
    Option LuaPointer :=
  match v with
  | LuaValue.lightuserdata p => if p.type = expected then some p else none
  | _ => none

/-- Modelled from the spec: the styler collaborator's attach operation
(style.h is not among the visible sources); it publishes the environment's
styler handle to the runtime under a fixed name of its own. -/
def provide_styler (e : ExtensionEnv) (s : LuaState) : LuaState :=
  { s with
    globals := setglobal s.globals EM_STYLER_VAR_NAME
      (LuaValue.lightuserdata e.styler) }

/-- Lua table write t[k] = v for the string-keyed integer tables this core
builds: replace the binding if the key is present, append it otherwise. -/
def lua_table_setfield (t : List (String × Int)) (k : String) (v : Int) :
    List (String × Int) :=
  if (t.lookup k).isSome then
    t.map (fun q => if q.1 = k then (k, v) else q)
  else
    t ++ [(k, v)]

/-- The node-type lookup table built by the loop of set_globals (ext-env.c
lines 94 to 99): for each index i below the length of the name list, set
field name[i] of the fresh table to the integer i. -/
def build_node_types_table (names : List String) : List (String × Int) :=
  names.enum.foldl (fun t q => lua_table_setfield t q.2 (Int.ofNat q.1)) []

/-- set_globals (ext-env.c lines 79 to 113): store the iteration number,
allocate and publish the self-handle, build and publish the node-type table,
and allocate and publish the parsed-arguments and name-registry handles.  The
C function reads the runtime out of the environment; here the runtime state is
threaded explicitly.  Each push/setglobal pair is modelled as the net global
update it performs. -/
def set_globals (e : ExtensionEnv) (s : LuaState) (params : ExtParams)
    (h : Host) : ExtensionEnv × LuaState :=
  let s := { s with
    globals := setglobal s.globals EM_ITER_NUM_VAR_NAME (LuaValue.integer 0) }
  let e := { e with selfp := ⟨LuaPointerType.EXT_ENV, h.env_addr⟩ }
  let s := { s with
    globals := setglobal s.globals EM_ENV_VAR_NAME
      (LuaValue.lightuserdata e.selfp) }
  let s := { s with
    globals := setglobal s.globals EM_NODE_TYPES_TABLE
      (LuaValue.table (build_node_types_table h.names)) }
  let e := { e with args := ⟨LuaPointerType.PARSED_ARGS, params.args⟩ }
  let s := { s with
    globals := setglobal s.globals EM_ARGS_VAR_NAME
      (LuaValue.lightuserdata e.args) }
  let e := { e with
    mt_names_list := ⟨LuaPointerType.MT_NAMES_LIST, params.mt_names_list⟩ }
  let s := { s with
    globals := setglobal s.globals EM_MT_NAMES_LIST_VAR_NAME
      (LuaValue.lightuserdata e.mt_names_list) }
  (e, s)

/-- ext-env.c lines 17 to 27: the always-permitted universal library row
(names as Lua defines the corresponding LUA_..NAME constants; the base library
registers under the empty name). -/
def lua_std_libs_universal : List String :=
  ["", "package", "coroutine", "utf8", "table", "string", "math", "debug"]

/-- ext-env.c lines 29 to 32: the input/output library row, permitted up to
sandbox level 1. -/
def lua_std_libs_restriction_lvl_1 : List String := ["io"]

/-- ext-env.c lines 34 to 37: the operating-system library row, permitted up
to sandbox level 0. -/
def lua_std_libs_restriction_lvl_0 : List String := ["os"]

/-- luaL_requiref with glb set: load the named library, bind it in the global
namespace, and push the module value on the stack. -/
def luaL_requiref (s : LuaState) (nm : String) : LuaState :=
  { globals := setglobal s.globals nm (LuaValue.lib nm)
    stack := LuaValue.lib nm :: s.stack }

/-- load_library_set (ext-env.c lines 140 to 148): walk the row until its
sentinel, requiring each library and popping the module value it left on the
stack (the per-library return value is discarded). -/
def load_library_set (s : LuaState) (lib : List String) : LuaState :=
  lib.foldl (fun s2 nm => lua_pop (luaL_requiref s2 nm) 1) s

/-- The three LOAD_LIBRARY_SET invocations of load_libraries (ext-env.c lines
115 to 125): each row is loaded exactly when the configured sandbox level is
at most the row's maximum level. -/
def load_libraries_tiers (s : LuaState) (params : ExtParams) : LuaState :=
  let s1 := if params.sandbox_lvl ≤ 2 then
      load_library_set s lua_std_libs_universal else s
  let s2 := if params.sandbox_lvl ≤ 1 then
      load_library_set s1 lua_std_libs_restriction_lvl_1 else s1
  if params.sandbox_lvl ≤ 0 then
    load_library_set s2 lua_std_libs_restriction_lvl_0 else s2

/-- lua_register: bind a host C function in the global namespace. -/
def lua_register (s : LuaState) (nm : String) : LuaState :=
  { s with globals := setglobal s.globals nm (LuaValue.cfunction nm) }

/-- load_em_std_functions (ext-env.c lines 132 to 138): register the four
host-implemented callables under their fixed names. -/
def load_em_std_functions (s : LuaState) : LuaState :=
  let s := lua_register s EM_EVAL_NODE_FUNC_NAME
  let s := lua_register s EM_IMPORT_STYLESHEET_FUNC_NAME
  let s := lua_register s EM_REQUIRE_RUNS_FUNC_NAME
  lua_register s EM_INCLUDE_FILE_FUNC_NAME

/-- load_libraries (ext-env.c lines 121 to 130): load the permitted tier rows,
register the em standard functions, then return the status of the external em
standard-library loader (lua-lib-load.h, not among the visible sources,
modelled by the status it returns). -/
def load_libraries (em_std_lib_rc : Int) (s : LuaState) (params : ExtParams) :
    Int × LuaState :=
  let s := load_libraries_tiers s params
  let s := load_em_std_functions s
  (em_std_lib_rc, s)

/-- A fresh runtime as returned by luaL_newstate: empty global namespace and
empty stack. -/
def fresh_lua_state : LuaState :=
  { globals := fun _ => LuaValue.nil, stack := [] }

/-- The prefix of make_ext_env up to but excluding library loading (ext-env.c
lines 45 to 55): create the runtime, initialise the flags, allocate the styler
handle, attach the styler, and run set_globals.  The three handle fields that
set_globals assigns are created here with placeholder contents, exactly as the
C struct holds indeterminate fields until set_globals writes them. -/
def creation_state (h : Host) (params : ExtParams) :
    ExtensionEnv × LuaState :=
  let s := fresh_lua_state
  let ext : ExtensionEnv :=
    { state := h.state_addr
      require_extra_run := true
      iter_num := 0
      styler := ⟨LuaPointerType.STYLER, params.styler⟩
      selfp := ⟨LuaPointerType.STYLER, 0⟩
      args := ⟨LuaPointerType.STYLER, 0⟩
      mt_names_list := ⟨LuaPointerType.STYLER, 0⟩ }
  let s := provide_styler ext s
  set_globals ext s params h

/-- What make_ext_env hands back to its caller: the returned status code, the
environment record, the runtime state, and whether the external extension
loader was invoked. -/
structure MakeResult where
  rc : Int
  env : ExtensionEnv
  lua : LuaState
  load_extensions_called : Bool

/-- make_ext_env (ext-env.c lines 45 to 62): construction, then library
loading; a non-zero library-loading status is returned at once, otherwise the
status of the external extension loader (ext-loader.h, not among the visible
sources, modelled by the status it returns) is passed through. -/
def make_ext_env (h : Host) (params : ExtParams) : MakeResult :=
  let es := creation_state h params
  let rs := load_libraries h.load_em_std_lib_rc es.2 params
  if rs.1 ≠ 0 then
    { rc := rs.1, env := es.1, lua := rs.2, load_extensions_called := false }
  else
    { rc := h.load_extensions_rc, env := es.1, lua := rs.2
      load_extensions_called := true }

/-- The guest-visible fatal errors ext_require_rerun can raise through
luaL_error. -/
inductive GuestError where
  | warningsAreFatal
  | invalidInternalValue
  deriving DecidableEq, Repr

/-- The single-environment machine state a guest-to-host callback operates on:
the runtime state plus the one Extension Environment, the target of every
valid EXT_ENV handle. -/
structure EmState where
  lua : LuaState
  env : ExtensionEnv

/-- ext_require_rerun (ext-env.c lines 150 to 165).  The warn_fatal input is
modelled from the spec: log_warn's implementation is not among the visible
sources and the spec has the core treat a non-zero warning-call return as
warnings-configured-fatal (the visible logs.h declares log_warn as returning
void, which the caller here contradicts; see the C6 analysis).  The first
component records whether the warning was emitted; luaL_error never returns,
so an error result abandons the rest of the body. -/
def ext_require_rerun (warn_fatal : Bool) (st : EmState) :
    Bool × Except GuestError (EmState × Nat) :=
  if lua_gettop st.lua ≠ 0 ∧ warn_fatal = true then
    (true, Except.error GuestError.warningsAreFatal)
  else
    match to_userdata_pointer
        (lua_stack_top (lua_getglobal st.lua EM_ENV_VAR_NAME))
        LuaPointerType.EXT_ENV with
    | none =>
        (decide (lua_gettop st.lua ≠ 0),
          Except.error GuestError.invalidInternalValue)
    | some _ =>
        (decide (lua_gettop st.lua ≠ 0),
          Except.ok
            ({ lua := lua_pop (lua_getglobal st.lua EM_ENV_VAR_NAME) 1
               env := { st.env with require_extra_run := true } }, 0))

/-- The operations of this core that act on an existing environment: a guest
invocation of the rerun-request callable (with the values it pushed as
arguments and the host warning policy in force), and
finalise_env_for_typesetting (ext-env.c line 77), which only detaches the
styler through the external styler collaborator and touches neither the flag
nor the counter. -/
inductive CoreOp where
  | requireRerun (args : List LuaValue) (warn_fatal : Bool)
  | finalise

/-- Apply one core operation to the machine state.  A guest call places its
arguments on the stack first; a guest-visible fatal error unwinds the call,
leaving the environment untouched. -/
def applyOp (st : EmState) : CoreOp → EmState
  | CoreOp.requireRerun argvs wf =>
      let entry : EmState :=
        { st with lua := { st.lua with stack := argvs ++ st.lua.stack } }
      match (ext_require_rerun wf entry).2 with
      | Except.ok res => res.1
      | Except.error _ => st
  | CoreOp.finalise => st

/-- A standard library is loaded in the constructed runtime when its module is
bound under its name in the global namespace of the state make_ext_env hands
back. -/
def lib_loaded (h : Host) (p : ExtParams) (n : String) : Prop :=
  getglobal (make_ext_env h p).lua.globals n = LuaValue.lib n

instance (h : Host) (p : ExtParams) (n : String) :
    Decidable (lib_loaded h p n) := by
  unfold lib_loaded
  infer_instance

/-- A concrete collaborator input used by the concrete evaluation theorems:
three distinct content-type names and successful external loaders. -/
def hostW : Host :=
  { names := ["word", "call", "content"]
    load_em_std_lib_rc := 0
    load_extensions_rc := 0
    state_addr := 1
    env_addr := 2 }

/-- A concrete parameter record used by the concrete evaluation theorems. -/
def paramsW : ExtParams :=
  { sandbox_lvl := 1, styler := 3, args := 4, mt_names_list := 5 }

/-- A concrete environment record used by the rerun-handler evaluation
theorems; its rerun flag starts false so the write is visible. -/
def envW : ExtensionEnv :=
  { state := 1
    require_extra_run := false
    iter_num := 3
    styler := ⟨LuaPointerType.STYLER, 4⟩
    selfp := ⟨LuaPointerType.EXT_ENV, 5⟩
    args := ⟨LuaPointerType.PARSED_ARGS, 6⟩
    mt_names_list := ⟨LuaPointerType.MT_NAMES_LIST, 7⟩ }

/-- A concrete global namespace holding a correctly tagged self-handle. -/
def globalsW : String → LuaValue :=
  fun n =>
    if n = EM_ENV_VAR_NAME then
      LuaValue.lightuserdata ⟨LuaPointerType.EXT_ENV, 5⟩
    else LuaValue.nil

/-- Machine state for a concrete zero-argument invocation with a valid
self-handle. -/
def stW : EmState :=
  { lua := { globals := globalsW, stack := [] }, env := envW }

/-- Machine state for a concrete invocation carrying one argument. -/
def stArgsW : EmState :=
  { lua := { globals := globalsW, stack := [LuaValue.integer 1] }, env := envW }

/-- Concrete machine state for the frame witness. -/
def stFrameW : EmState :=
  { lua :=
      { globals := fun n =>
          if n = EM_ENV_VAR_NAME then
            LuaValue.lightuserdata ⟨LuaPointerType.EXT_ENV, 9⟩
          else LuaValue.nil
        stack := [] }
    env :=
      { state := 8
        require_extra_run := false
        iter_num := 2
        styler := ⟨LuaPointerType.STYLER, 10⟩
        selfp := ⟨LuaPointerType.EXT_ENV, 9⟩
        args := ⟨LuaPointerType.PARSED_ARGS, 11⟩
        mt_names_list := ⟨LuaPointerType.MT_NAMES_LIST, 12⟩ } }

/-- The machine state the rerun handler returns from stFrameW. -/
def stFrameW2 : EmState :=
  { stFrameW with env := { stFrameW.env with require_extra_run := true } }

/-- The machine state immediately after construction. -/
def post_creation_state (h : Host) (p : ExtParams) : EmState :=
  { lua := (make_ext_env h p).lua, env := (make_ext_env h p).env }

/-- Registration effect of one library row: a name reads back as the loaded
module exactly when it occurs in the row; other globals are untouched. -/
theorem getglobal_load_library_set (lib : List String) (s : LuaState)
    (n : String) :
    getglobal (load_library_set s lib).globals n =
      if n ∈ lib then LuaValue.lib n else getglobal s.globals n := by
  induction lib generalizing s with
  | nil => simp [load_library_set]
  | cons a l ih =>
    have hstep : load_library_set s (a :: l)
        = load_library_set (lua_pop (luaL_requiref s a) 1) l := rfl
    rw [hstep, ih]
    by_cases hl : n ∈ l
    · simp [hl]
    · by_cases ha : n = a <;>
        simp [hl, ha, luaL_requiref, lua_pop, getglobal, setglobal]

/-- Each library row leaves the stack as it found it: every module value
pushed by luaL_requiref is popped again. -/
theorem stack_load_library_set (lib : List String) (s : LuaState) :
    (load_library_set s lib).stack = s.stack := by
  induction lib generalizing s with
  | nil => rfl
  | cons a l ih =>
    have hstep : load_library_set s (a :: l)
        = load_library_set (lua_pop (luaL_requiref s a) 1) l := rfl
    rw [hstep, ih]
    simp [luaL_requiref, lua_pop]

/-- Combined registration effect of the three tier rows of load_libraries. -/
theorem getglobal_load_libraries_tiers (s : LuaState) (p : ExtParams)
    (n : String) :
    getglobal (load_libraries_tiers s p).globals n =
      if p.sandbox_lvl ≤ 0 ∧ n ∈ lua_std_libs_restriction_lvl_0 then
        LuaValue.lib n
      else if p.sandbox_lvl ≤ 1 ∧ n ∈ lua_std_libs_restriction_lvl_1 then
        LuaValue.lib n
      else if p.sandbox_lvl ≤ 2 ∧ n ∈ lua_std_libs_universal then
        LuaValue.lib n
      else getglobal s.globals n := by
  unfold load_libraries_tiers
  by_cases h0 : p.sandbox_lvl ≤ 0 <;> by_cases h1 : p.sandbox_lvl ≤ 1 <;>
    by_cases h2 : p.sandbox_lvl ≤ 2 <;>
    first
    | omega
    | (by_cases m0 : n ∈ lua_std_libs_restriction_lvl_0 <;>
       by_cases m1 : n ∈ lua_std_libs_restriction_lvl_1 <;>
       by_cases m2 : n ∈ lua_std_libs_universal <;>
       simp [h0, h1, h2, m0, m1, m2, getglobal_load_library_set])

/-- The tier rows leave the stack unchanged. -/
theorem stack_load_libraries_tiers (s : LuaState) (p : ExtParams) :
    (load_libraries_tiers s p).stack = s.stack := by
  unfold load_libraries_tiers
  by_cases h0 : p.sandbox_lvl ≤ 0 <;> by_cases h1 : p.sandbox_lvl ≤ 1 <;>
    by_cases h2 : p.sandbox_lvl ≤ 2 <;>
    simp [h0, h1, h2, stack_load_library_set]

/-- Registration effect of load_em_std_functions: the four fixed callable
names read back as host functions; other globals are untouched. -/
theorem getglobal_load_em_std_functions (s : LuaState) (n : String) :
    getglobal (load_em_std_functions s).globals n =
      if n = EM_INCLUDE_FILE_FUNC_NAME then
        LuaValue.cfunction EM_INCLUDE_FILE_FUNC_NAME
      else if n = EM_REQUIRE_RUNS_FUNC_NAME then
        LuaValue.cfunction EM_REQUIRE_RUNS_FUNC_NAME
      else if n = EM_IMPORT_STYLESHEET_FUNC_NAME then
        LuaValue.cfunction EM_IMPORT_STYLESHEET_FUNC_NAME
      else if n = EM_EVAL_NODE_FUNC_NAME then
        LuaValue.cfunction EM_EVAL_NODE_FUNC_NAME
      else getglobal s.globals n := by
  simp only [load_em_std_functions, lua_register, getglobal, setglobal]

/-- load_em_std_functions leaves the stack unchanged. -/
theorem stack_load_em_std_functions (s : LuaState) :
    (load_em_std_functions s).stack = s.stack := rfl

/-- The environment record produced by the construction prefix has the rerun
flag set and the counter at zero. -/
theorem creation_state_env_flags (h : Host) (p : ExtParams) :
    (creation_state h p).1.require_extra_run = true
      ∧ (creation_state h p).1.iter_num = 0 :=
  ⟨rfl, rfl⟩

/-- Before library loading, no global of the constructed runtime is a loaded
library module: the construction prefix binds only integers, handles and the
node-type table. -/
theorem creation_state_not_lib (h : Host) (p : ExtParams) (n m : String) :
    getglobal (creation_state h p).2.globals n ≠ LuaValue.lib m := by
  simp only [creation_state, set_globals, provide_styler, fresh_lua_state,
    getglobal, setglobal]
  split_ifs <;> simp

/-- The runtime state make_ext_env hands back is the construction prefix
followed by tier loading and host-function registration (the external loaders
cross the interface by status only). -/
theorem make_ext_env_lua (h : Host) (p : ExtParams) :
    (make_ext_env h p).lua =
      load_em_std_functions (load_libraries_tiers (creation_state h p).2 p) := by
  simp only [make_ext_env, load_libraries]
  split <;> rfl

/-- The environment record make_ext_env hands back is the one built by the
construction prefix. -/
theorem make_ext_env_env (h : Host) (p : ExtParams) :
    (make_ext_env h p).env = (creation_state h p).1 := by
  simp only [make_ext_env]
  split <;> rfl

/-- Characterisation of library presence in the constructed runtime: a name is
bound to a loaded module exactly when some tier row containing it was
permitted by the sandbox level. -/
theorem lib_loaded_iff (h : Host) (p : ExtParams) (n : String) :
    lib_loaded h p n ↔
      (p.sandbox_lvl ≤ 2 ∧ n ∈ lua_std_libs_universal)
      ∨ (p.sandbox_lvl ≤ 1 ∧ n ∈ lua_std_libs_restriction_lvl_1)
      ∨ (p.sandbox_lvl ≤ 0 ∧ n ∈ lua_std_libs_restriction_lvl_0) := by
  unfold lib_loaded
  rw [make_ext_env_lua, getglobal_load_em_std_functions]
  split_ifs with hf1 hf2 hf3 hf4
  · subst hf1
    simp [EM_INCLUDE_FILE_FUNC_NAME, lua_std_libs_universal,
      lua_std_libs_restriction_lvl_1, lua_std_libs_restriction_lvl_0]
  · subst hf2
    simp [EM_REQUIRE_RUNS_FUNC_NAME, lua_std_libs_universal,
      lua_std_libs_restriction_lvl_1, lua_std_libs_restriction_lvl_0]
  · subst hf3
    simp [EM_IMPORT_STYLESHEET_FUNC_NAME, lua_std_libs_universal,
      lua_std_libs_restriction_lvl_1, lua_std_libs_restriction_lvl_0]
  · subst hf4
    simp [EM_EVAL_NODE_FUNC_NAME, lua_std_libs_universal,
      lua_std_libs_restriction_lvl_1, lua_std_libs_restriction_lvl_0]
  · rw [getglobal_load_libraries_tiers]
    split_ifs with g0 g1 g2
    · simp only [true_iff]
      exact Or.inr (Or.inr g0)
    · simp only [true_iff]
      exact Or.inr (Or.inl g1)
    · simp only [true_iff]
      exact Or.inl g2
    · have hc := creation_state_not_lib h p n n
      constructor
      · intro hx
        exact absurd hx hc
      · intro hx
        rcases hx with hx | hx | hx <;> tauto

/-- C1: after make_ext_env returns successfully, for every sandbox level and
every parameter set, the environment's rerun flag is true and its iteration
counter is 0. -/
theorem make_ext_env_initialises_rerun_and_iter (h : Host) (p : ExtParams)
    (hrc : (make_ext_env h p).rc = 0) :
    (make_ext_env h p).env.require_extra_run = true
      ∧ (make_ext_env h p).env.iter_num = 0 := by
  rw [make_ext_env_env]
  exact creation_state_env_flags h p

/-- Witness for C1 at a concrete successful construction. -/
theorem make_ext_env_initialises_rerun_and_iter_witness :
    (make_ext_env hostW paramsW).env.require_extra_run = true
      ∧ (make_ext_env hostW paramsW).env.iter_num = 0 :=
  make_ext_env_initialises_rerun_and_iter hostW paramsW (by decide)

/-- C8: a non-zero status from mandatory host-library loading is returned
unchanged and the external extension loader is not invoked; otherwise the
external extension loader's status is returned to the caller unchanged. -/
theorem make_ext_env_propagates_errors (h : Host) (p : ExtParams) :
    (h.load_em_std_lib_rc ≠ 0 →
        (make_ext_env h p).rc = h.load_em_std_lib_rc
          ∧ (make_ext_env h p).load_extensions_called = false)
      ∧ (h.load_em_std_lib_rc = 0 →
        (make_ext_env h p).rc = h.load_extensions_rc
          ∧ (make_ext_env h p).load_extensions_called = true) := by
  constructor
  · intro hne
    simp [make_ext_env, load_libraries, hne]
  · intro heq
    simp [make_ext_env, load_libraries, heq]

/-- Witness for C8 at a concrete failing library load. -/
theorem make_ext_env_propagates_errors_witness :
    (make_ext_env { hostW with load_em_std_lib_rc := 5 } paramsW).rc = 5
      ∧ (make_ext_env { hostW with load_em_std_lib_rc := 5 }
          paramsW).load_extensions_called = false :=
  (make_ext_env_propagates_errors { hostW with load_em_std_lib_rc := 5 }
    paramsW).1 (by decide)

/-- C4: each capability-tier row is loaded iff the configured sandbox level is
at most the row's maximum level (universal 2, input/output 1, operating-system
0), every entry of a loaded row is registered in the global namespace, and
each per-library return value is discarded from the stack. -/
theorem tier_rows_loaded_iff_level_le_max (h : Host) (p : ExtParams) :
    (∀ n ∈ lua_std_libs_universal, lib_loaded h p n ↔ p.sandbox_lvl ≤ 2)
      ∧ (∀ n ∈ lua_std_libs_restriction_lvl_1,
          lib_loaded h p n ↔ p.sandbox_lvl ≤ 1)
      ∧ (∀ n ∈ lua_std_libs_restriction_lvl_0,
          lib_loaded h p n ↔ p.sandbox_lvl ≤ 0)
      ∧ ∀ (s : LuaState) (lib : List String),
          (load_library_set s lib).stack = s.stack := by
  refine ⟨?_, ?_, ?_, fun s lib => stack_load_library_set lib s⟩
  · intro n hn
    fin_cases hn <;>
      simp [lib_loaded_iff, lua_std_libs_universal,
        lua_std_libs_restriction_lvl_1, lua_std_libs_restriction_lvl_0]
  · intro n hn
    fin_cases hn <;>
      simp [lib_loaded_iff, lua_std_libs_universal,
        lua_std_libs_restriction_lvl_1, lua_std_libs_restriction_lvl_0]
  · intro n hn
    fin_cases hn <;>
      simp [lib_loaded_iff, lua_std_libs_universal,
        lua_std_libs_restriction_lvl_1, lua_std_libs_restriction_lvl_0]

/-- Witness for C4: at sandbox level 1 the input/output row is loaded. -/
theorem tier_rows_loaded_iff_level_le_max_witness :
    lib_loaded hostW paramsW "io" :=
  ((tier_rows_loaded_iff_level_le_max hostW paramsW).2.1 "io"
    (by decide)).mpr (by decide)

/-- C3 as stated is false at the explicit levels 0 < 2: the operating-system
library is loaded at level 0 but not at level 2, so the set of libraries
loaded at the lower level is not a subset of the set loaded at the higher
level and capabilities do not grow with the numeric level. -/
theorem level_monotonicity_counterexample :
    (0 : Int) < 2
      ∧ lib_loaded hostW { paramsW with sandbox_lvl := 0 } "os"
      ∧ ¬ lib_loaded hostW { paramsW with sandbox_lvl := 2 } "os" := by
  refine ⟨by decide, ?_, ?_⟩
  · rw [lib_loaded_iff]
    exact Or.inr (Or.inr ⟨by decide, by decide⟩)
  · rw [lib_loaded_iff]
    intro hx
    rcases hx with ⟨ha, hb⟩ | ⟨ha, hb⟩ | ⟨ha, hb⟩
    · exact absurd hb (by decide)
    · exact absurd hb (by decide)
    · exact absurd (show (2 : Int) ≤ 0 from ha) (by decide)

/-- C3 amended: for all sandbox levels L0 < L1, the set of standard libraries
loaded at L1 is a subset of the set loaded at L0 — capabilities shrink
monotonically as the numeric level grows, so a lower numeric sandbox level
yields at least the capabilities of any higher one. -/
theorem libs_antitone_in_level (h : Host) (p : ExtParams) (L0 L1 : Int)
    (hlt : L0 < L1) (n : String)
    (hn : lib_loaded h { p with sandbox_lvl := L1 } n) :
    lib_loaded h { p with sandbox_lvl := L0 } n := by
  rw [lib_loaded_iff] at hn ⊢
  rcases hn with ⟨ha, hb⟩ | ⟨ha, hb⟩ | ⟨ha, hb⟩
  · have ha2 : L1 ≤ 2 := ha
    exact Or.inl ⟨show L0 ≤ 2 by omega, hb⟩
  · have ha1 : L1 ≤ 1 := ha
    exact Or.inr (Or.inl ⟨show L0 ≤ 1 by omega, hb⟩)
  · have ha0 : L1 ≤ 0 := ha
    exact Or.inr (Or.inr ⟨show L0 ≤ 0 by omega, hb⟩)

/-- Witness for C3's amendment: the input/output library loaded at level 1 is
also loaded at level 0. -/
theorem libs_antitone_in_level_witness :
    lib_loaded hostW { paramsW with sandbox_lvl := 0 } "io" :=
  libs_antitone_in_level hostW paramsW 0 1 (by decide) "io" (by decide)

/-- C5 as stated is false: sandbox level 2 satisfies level ≥ 1, yet the
input/output library is not granted there. -/
theorem sandbox_grants_counterexample :
    (1 : Int) ≤ 2
      ∧ ¬ lib_loaded hostW { paramsW with sandbox_lvl := 2 } "io" := by
  refine ⟨by decide, ?_⟩
  rw [lib_loaded_iff]
  intro hx
  rcases hx with ⟨ha, hb⟩ | ⟨ha, hb⟩ | ⟨ha, hb⟩
  · exact absurd hb (by decide)
  · exact absurd (show (2 : Int) ≤ 1 from ha) (by decide)
  · exact absurd (show (2 : Int) ≤ 0 from ha) (by decide)

/-- C5 amended: at sandbox level at least 2 only universal facilities are
exposed; at level at most 1 the input/output row is also granted; at level at
most 0 the operating-system row is also granted — in particular at level 0 the
operating-system library is present in the runtime's global namespace and at
level 2 it is absent. -/
theorem sandbox_tier_grants (h : Host) (p : ExtParams) :
    (2 ≤ p.sandbox_lvl → ∀ n, lib_loaded h p n → n ∈ lua_std_libs_universal)
      ∧ (p.sandbox_lvl ≤ 1 →
          ∀ n ∈ lua_std_libs_restriction_lvl_1, lib_loaded h p n)
      ∧ (p.sandbox_lvl ≤ 0 →
          ∀ n ∈ lua_std_libs_restriction_lvl_0, lib_loaded h p n)
      ∧ lib_loaded h { p with sandbox_lvl := 0 } "os"
      ∧ ¬ lib_loaded h { p with sandbox_lvl := 2 } "os" := by
  refine ⟨?_, ?_, ?_, ?_, ?_⟩
  · intro h2 n hl
    rw [lib_loaded_iff] at hl
    rcases hl with ⟨ha, hb⟩ | ⟨ha, hb⟩ | ⟨ha, hb⟩
    · exact hb
    · exact absurd ha (by omega)
    · exact absurd ha (by omega)
  · intro hle n hn
    rw [lib_loaded_iff]
    exact Or.inr (Or.inl ⟨hle, hn⟩)
  · intro hle n hn
    rw [lib_loaded_iff]
    exact Or.inr (Or.inr ⟨hle, hn⟩)
  · rw [lib_loaded_iff]
    exact Or.inr (Or.inr ⟨show (0 : Int) ≤ 0 by decide, by decide⟩)
  · rw [lib_loaded_iff]
    intro hx
    rcases hx with ⟨ha, hb⟩ | ⟨ha, hb⟩ | ⟨ha, hb⟩
    · exact absurd hb (by decide)
    · exact absurd hb (by decide)
    · exact absurd (show (2 : Int) ≤ 0 from ha) (by decide)

/-- Witness for C5's amendment: at sandbox level 1 the input/output library is
granted. -/
theorem sandbox_tier_grants_witness :
    lib_loaded hostW paramsW "io" :=
  (sandbox_tier_grants hostW paramsW).2.1 (by decide) "io" (by decide)

/-- Shape of every successful completion of the rerun handler: the rerun flag
is set, nothing else in the machine state changes, and zero results are
returned. -/
theorem ext_require_rerun_ok_shape (wf : Bool) (st st2 : EmState) (k : Nat)
    (hok : (ext_require_rerun wf st).2 = Except.ok (st2, k)) :
    st2 = { st with env := { st.env with require_extra_run := true } }
      ∧ k = 0 := by
  rcases st with ⟨⟨g, stk⟩, env⟩
  unfold ext_require_rerun at hok
  split_ifs at hok with hwf
  split at hok
  · simp at hok
  · simp at hok
    obtain ⟨hst, hk⟩ := hok
    subst hst
    subst hk
    refine ⟨?_, rfl⟩
    simp [lua_pop, lua_getglobal]

/-- C10: a call to the rerun handler that completes without raising a
guest-visible error modifies only the require_extra_run field of the owning
environment — the runtime-state pointer, the iteration counter and the four
handles are unchanged — leaves the globals untouched and the stack at its
entry depth, and returns zero results. -/
theorem ext_require_rerun_frame (wf : Bool) (st st2 : EmState) (k : Nat)
    (hok : (ext_require_rerun wf st).2 = Except.ok (st2, k)) :
    st2.env.state = st.env.state
      ∧ st2.env.iter_num = st.env.iter_num
      ∧ st2.env.selfp = st.env.selfp
      ∧ st2.env.styler = st.env.styler
      ∧ st2.env.args = st.env.args
      ∧ st2.env.mt_names_list = st.env.mt_names_list
      ∧ st2.env = { st.env with require_extra_run := true }
      ∧ st2.lua.stack.length = st.lua.stack.length
      ∧ st2.lua.globals = st.lua.globals
      ∧ k = 0 := by
  obtain ⟨hshape, hk⟩ := ext_require_rerun_ok_shape wf st st2 k hok
  subst hshape
  subst hk
  exact ⟨rfl, rfl, rfl, rfl, rfl, rfl, rfl, rfl, rfl, rfl⟩

/-- Witness for C10 at a concrete completed invocation. -/
theorem ext_require_rerun_frame_witness :
    stFrameW2.env.iter_num = stFrameW.env.iter_num
      ∧ stFrameW2.lua.globals = stFrameW.lua.globals :=
  ⟨(ext_require_rerun_frame false stFrameW stFrameW2 0 rfl).2.1,
   (ext_require_rerun_frame false stFrameW stFrameW2 0
      rfl).2.2.2.2.2.2.2.2.1⟩

/-- C2: invoked with zero arguments, the handler resolves the self-handle
from the runtime's global scope; with a handle tagged EXTENSION_ENV it sets
the owning environment's rerun flag to true and returns no guest-visible
value; when tag validation fails it raises the guest-visible fatal
invalid-internal-value error instead of continuing, the environment — and so
the flag — left unwritten. -/
theorem ext_require_rerun_zero_args (wf : Bool) (st : EmState)
    (hstk : st.lua.stack = []) :
    (∀ q : LuaPointer, q.type = LuaPointerType.EXT_ENV →
        getglobal st.lua.globals EM_ENV_VAR_NAME = LuaValue.lightuserdata q →
        (ext_require_rerun wf st).2 =
          Except.ok
            ({ st with env := { st.env with require_extra_run := true } }, 0))
      ∧ (to_userdata_pointer (getglobal st.lua.globals EM_ENV_VAR_NAME)
            LuaPointerType.EXT_ENV = none →
          (ext_require_rerun wf st).2 =
              Except.error GuestError.invalidInternalValue
            ∧ (applyOp st (CoreOp.requireRerun [] wf)).env = st.env) := by
  rcases st with ⟨⟨g, stk⟩, env⟩
  simp only at hstk
  subst hstk
  constructor
  · intro q hq hg
    simp only [getglobal] at hg
    simp [ext_require_rerun, lua_gettop, lua_stack_top, lua_getglobal,
      lua_pop, getglobal, to_userdata_pointer, hg, hq]
  · intro hnone
    simp only [getglobal] at hnone
    have herr : (ext_require_rerun wf
        { lua := { globals := g, stack := [] }, env := env }).2 =
          Except.error GuestError.invalidInternalValue := by
      simp [ext_require_rerun, lua_gettop, lua_stack_top, lua_getglobal,
        getglobal, hnone]
    refine ⟨herr, ?_⟩
    simp only [applyOp, List.nil_append]
    rw [herr]

/-- Witness for C2: a concrete zero-argument invocation against a valid
self-handle sets the flag and returns zero results. -/
theorem ext_require_rerun_zero_args_witness :
    (ext_require_rerun false stW).2 =
      Except.ok
        ({ stW with env := { stW.env with require_extra_run := true } }, 0) :=
  (ext_require_rerun_zero_args false stW rfl).1
    ⟨LuaPointerType.EXT_ENV, 5⟩ rfl rfl

/-- C6: modelled behaviour of the argument-carrying path at the failing input
requires_reiter(1): the warning is emitted first, and under a warnings-fatal
policy the callable aborts with the guest-visible fatal error instead of
proceeding; under a non-fatal policy it still warns rather than silently
no-opping.  The visible logs.h declares log_warn as returning void, which
contradicts this caller, whose branch reads the warning call's return
value. -/
theorem rerun_args_warn_then_fatal :
    (ext_require_rerun true stArgsW).1 = true
      ∧ (ext_require_rerun true stArgsW).2 =
          Except.error GuestError.warningsAreFatal
      ∧ (ext_require_rerun false stArgsW).1 = true :=
  ⟨rfl, rfl, rfl⟩

/-- Every core operation preserves a set rerun flag: the rerun handler only
ever writes true and finalisation does not touch the flag. -/
theorem applyOp_preserves_flag (st : EmState) (op : CoreOp)
    (hflag : st.env.require_extra_run = true) :
    (applyOp st op).env.require_extra_run = true := by
  cases op with
  | finalise => exact hflag
  | requireRerun argvs wf =>
      simp only [applyOp]
      split
      · next res heq =>
          have hsh := ext_require_rerun_ok_shape wf _ res.1 res.2 heq
          rw [hsh.1]
      · exact hflag

/-- C9: no operation of this core ever clears the rerun flag: make_ext_env
initialises it to true, and after any sequence of core operations on the
created environment the flag is still true. -/
theorem rerun_flag_never_cleared (h : Host) (p : ExtParams)
    (ops : List CoreOp) :
    ((make_ext_env h p).env.require_extra_run = true)
      ∧ (ops.foldl applyOp (post_creation_state h p)).env.require_extra_run
          = true := by
  have hinit : (make_ext_env h p).env.require_extra_run = true := by
    rw [make_ext_env_env]
    exact (creation_state_env_flags h p).1
  have hgen : ∀ (l : List CoreOp) (st : EmState),
      st.env.require_extra_run = true →
      (l.foldl applyOp st).env.require_extra_run = true := by
    intro l
    induction l with
    | nil => intro st hst; exact hst
    | cons op l ih =>
        intro st hst
        exact ih (applyOp st op) (applyOp_preserves_flag st op hst)
  exact ⟨hinit, hgen ops (post_creation_state h p) hinit⟩

/-- A lookup miss survives appending a single binding under a different
key. -/
theorem lookup_append_single_none (t : List (String × Int)) (a k : String)
    (v : Int) (h : t.lookup a = none) (hne : a ≠ k) :
    (t ++ [(k, v)]).lookup a = none := by
  induction t with
  | nil =>
    simp only [List.nil_append, List.lookup]
    rw [beq_eq_false_iff_ne.mpr hne]
  | cons e t ih =>
    rcases e with ⟨k0, v0⟩
    by_cases h0 : a = k0
    · subst h0
      simp [List.lookup] at h
    · simp only [List.cons_append, List.lookup] at h ⊢
      rw [beq_eq_false_iff_ne.mpr h0] at h ⊢
      exact ih h

/-- Folding table writes over pairwise-fresh keys appends the corresponding
bindings in order. -/
theorem foldl_setfield_fresh (l : List (Nat × String)) :
    ∀ t : List (String × Int), (l.map Prod.snd).Nodup →
      (∀ q ∈ l, t.lookup q.2 = none) →
      l.foldl (fun acc q => lua_table_setfield acc q.2 (Int.ofNat q.1)) t
        = t ++ l.map (fun q => (q.2, Int.ofNat q.1)) := by
  induction l with
  | nil =>
    intro t _ _
    simp
  | cons q l ih =>
    intro t hnd hfresh
    have hq : t.lookup q.2 = none := hfresh q (List.mem_cons_self q l)
    have hstep : lua_table_setfield t q.2 (Int.ofNat q.1)
        = t ++ [(q.2, Int.ofNat q.1)] := by
      simp [lua_table_setfield, hq]
    simp only [List.foldl_cons, hstep]
    rw [ih]
    · simp
    · have hnd2 := hnd
      simp only [List.map_cons, List.nodup_cons] at hnd2
      exact hnd2.2
    · intro r hr
      have hq2 : q.2 ∉ l.map Prod.snd := by
        simp only [List.map_cons, List.nodup_cons] at hnd
        exact hnd.1
      have hne : r.2 ≠ q.2 := by
        intro hEq
        exact hq2 (hEq ▸ List.mem_map_of_mem Prod.snd hr)
      exact lookup_append_single_none t r.2 q.2 (Int.ofNat q.1)
        (hfresh r (List.mem_cons_of_mem q hr)) hne

/-- Looking a name up in the enumerated name-to-ordinal list yields the
name's position, offset by the enumeration start. -/
theorem lookup_enumFrom_map (names : List String) :
    ∀ (k i : Nat) (hi : i < names.length), names.Nodup →
      ((names.enumFrom k).map (fun q => (q.2, Int.ofNat q.1))).lookup
          (names.get ⟨i, hi⟩) = some (Int.ofNat (k + i)) := by
  induction names with
  | nil =>
    intro k i hi _
    simp at hi
  | cons a l ih =>
    intro k i hi hnd
    have hred : (a :: l).enumFrom k = (k, a) :: l.enumFrom (k + 1) := rfl
    cases i with
    | zero =>
      rw [hred]
      simp [List.lookup]
    | succ j =>
      have hj : j < l.length := by simpa using hi
      have ha : a ∉ l := (List.nodup_cons.mp hnd).1
      have hne : l.get ⟨j, hj⟩ ≠ a := by
        intro hEq
        exact ha (hEq ▸ List.get_mem l j hj)
      have hget : (a :: l).get ⟨j + 1, hi⟩ = l.get ⟨j, hj⟩ := rfl
      rw [hred, hget, List.map_cons]
      simp only [List.lookup]
      rw [beq_eq_false_iff_ne.mpr hne]
      rw [ih (k + 1) j hj (List.nodup_cons.mp hnd).2]
      have harith : k + 1 + j = k + (j + 1) := by omega
      rw [harith]

/-- With pairwise distinct names, the node-type table is exactly the
enumeration of the name list with each name paired to its ordinal. -/
theorem build_node_types_table_eq (names : List String) (hnd : names.Nodup) :
    build_node_types_table names
      = names.enum.map (fun q => (q.2, Int.ofNat q.1)) := by
  unfold build_node_types_table
  rw [foldl_setfield_fresh]
  · simp
  · rw [List.enum_map_snd]
    exact hnd
  · intro q hq
    rfl

/-- The key list of the node-type table is exactly the canonical name list. -/
theorem build_node_types_table_keys (names : List String)
    (hnd : names.Nodup) :
    (build_node_types_table names).map Prod.fst = names := by
  rw [build_node_types_table_eq names hnd, List.map_map]
  have hcomp : (Prod.fst ∘ fun q : Nat × String => (q.2, Int.ofNat q.1))
      = Prod.snd := by
    funext q
    rfl
  rw [hcomp, List.enum_map_snd]

/-- Each name of the node-type table maps to its position in the canonical
name list. -/
theorem build_node_types_table_lookup (names : List String)
    (hnd : names.Nodup) (i : Nat) (hi : i < names.length) :
    (build_node_types_table names).lookup (names.get ⟨i, hi⟩)
      = some (Int.ofNat i) := by
  rw [build_node_types_table_eq names hnd]
  have h0 : names.enum = names.enumFrom 0 := rfl
  rw [h0]
  have hlk := lookup_enumFrom_map names 0 i hi hnd
  simpa using hlk

/-- C7: the node-type lookup table injected by set_globals has exactly one
entry per known content-type name — its key list is exactly the host's
canonical ordered name list — and each name is mapped to the integer equal to
its position in that list, so the name-to-ordinal round trip matches the
host's enumeration index exactly. -/
theorem node_types_table_exact (e : ExtensionEnv) (s : LuaState)
    (p : ExtParams) (h : Host) (hnd : h.names.Nodup) :
    ∃ t, getglobal (set_globals e s p h).2.globals EM_NODE_TYPES_TABLE
        = LuaValue.table t
      ∧ t.map Prod.fst = h.names
      ∧ ∀ i (hi : i < h.names.length),
          t.lookup (h.names.get ⟨i, hi⟩) = some (Int.ofNat i) := by
  refine ⟨build_node_types_table h.names, ?_,
    build_node_types_table_keys h.names hnd,
    fun i hi => build_node_types_table_lookup h.names hnd i hi⟩
  simp [set_globals, getglobal, setglobal, EM_NODE_TYPES_TABLE,
    EM_ARGS_VAR_NAME, EM_MT_NAMES_LIST_VAR_NAME]

/-- Witness for C7 at a concrete three-name canonical list. -/
theorem node_types_table_exact_witness :
    ∃ t, getglobal (set_globals envW { globals := globalsW, stack := [] }
          paramsW hostW).2.globals EM_NODE_TYPES_TABLE = LuaValue.table t
      ∧ t.map Prod.fst = hostW.names
      ∧ ∀ i (hi : i < hostW.names.length),
          t.lookup (hostW.names.get ⟨i, hi⟩) = some (Int.ofNat i) :=
  node_types_table_exact envW { globals := globalsW, stack := [] } paramsW
    hostW (by decide)

end Emblem
